import Mathlib

/-
Verification of the local-cache query layer of `linear-mcp-fast`.

The Python sources under `src/linear_mcp_fast/` (`local_handlers.py`,
`server.py`, `official_session.py`) are shallowly embedded below.  Python
dicts that are iterated in insertion order are modelled as Lean lists;
Python dicts used as id-keyed maps are modelled as association lists;
`x.get(key)` on a record becomes an `Option` field access; Python string
truthiness (`if s:`) becomes `pyTruthy`.  Timestamps are opaque strings
ordered lexicographically, exactly as the code compares them.

The module `reader.py` (class `LinearLocalReader`) is not part of the
sources at hand; its query primitives are therefore abstract function
fields of the `Reader` structure, except where a claim depends on their
behaviour, in which case they are modelled from the specification and
marked as such in their doc comment.
-/

namespace LMF

/-- Python truthiness of an optional string: `None` and `""` are falsy. -/
def pyTruthy : Option String → Bool
  | none => false
  | some s => !s.isEmpty

/-- Python truthiness of an optional bool: only `True` is truthy. -/
def pyTruthyBool : Option Bool → Bool
  | some b => b
  | none => false

/-- Python `str` of an optional string, as rendered inside an f-string:
`None` prints as `"None"`. -/
def pyStr : Option String → String
  | some s => s
  | none => "None"

/-- Lookup in an insertion-ordered Python dict modelled as an association
list (`d.get(k)`): the value at the first matching key. -/
def dictGet (m : List (String × α)) (k : String) : Option α :=
  (m.find? (fun e => e.1 == k)).map (·.2)

/-- Python `needle in hay` on strings: substring containment. -/
def pyContains (hay needle : String) : Bool :=
  hay.toList.tails.any (fun t => needle.toList.isPrefixOf t)

/-- Python slice `l[:n]` for an `Int` bound: a negative `n` keeps all but
the last `|n|` elements (empty when `|n| ≥ length`). -/
def pySliceTo (l : List α) (n : Int) : List α :=
  if 0 ≤ n then l.take n.toNat else l.take (l.length - n.natAbs)

/-- Lexicographic comparison of char lists by code point, the comparison
Python applies to strings. -/
def lexLe : List Char → List Char → Bool
  | [], _ => true
  | _ :: _, [] => false
  | a :: as, b :: bs =>
    if a.toNat < b.toNat then true
    else if b.toNat < a.toNat then false
    else lexLe as bs

/-- Python `a <= b` on strings: code-point lexicographic order. -/
def pyStrLe (a b : String) : Bool :=
  lexLe a.data b.data

/-- A computable total preorder used as a Python sort key codomain. -/
class PyOrd (β : Type v) where
  leB : β → β → Bool
  total : ∀ a b, leB a b = true ∨ leB b a = true
  le_trans : ∀ a b c, leB a b = true → leB b c = true → leB a c = true

/-- Unfolding equation for `lexLe` on two cons cells, as a proof term so
the `PyOrd` instances below can be plain definitions. -/
def lexLeConsIff (a b : Char) (as bs : List Char) :
    lexLe (a :: as) (b :: bs) = true ↔
      a.toNat < b.toNat ∨ (a.toNat = b.toNat ∧ lexLe as bs = true) := by
  simp only [lexLe]
  by_cases h1 : a.toNat < b.toNat
  · rw [if_pos h1]
    simp [h1]
  · rw [if_neg h1]
    by_cases h2 : b.toNat < a.toNat
    · rw [if_pos h2]
      constructor
      · intro hx
        exact Bool.noConfusion hx
      · rintro (h3 | ⟨h3, -⟩) <;> omega
    · rw [if_neg h2]
      have he : a.toNat = b.toNat := by omega
      simp [he, h1]

/-- Totality of `lexLe`, as a proof term. -/
def lexLeTotal : ∀ xs ys : List Char, lexLe xs ys = true ∨ lexLe ys xs = true
  | [], _ => Or.inl rfl
  | _ :: _, [] => Or.inr rfl
  | a :: as, b :: bs => by
    rcases Nat.lt_trichotomy a.toNat b.toNat with h | h | h
    · exact Or.inl ((lexLeConsIff ..).mpr (Or.inl h))
    · rcases lexLeTotal as bs with hx | hx
      · exact Or.inl ((lexLeConsIff ..).mpr (Or.inr ⟨h, hx⟩))
      · exact Or.inr ((lexLeConsIff ..).mpr (Or.inr ⟨h.symm, hx⟩))
    · exact Or.inr ((lexLeConsIff ..).mpr (Or.inl h))

/-- Transitivity of `lexLe`, as a proof term. -/
def lexLeTrans : ∀ xs ys zs : List Char,
    lexLe xs ys = true → lexLe ys zs = true → lexLe xs zs = true
  | [], _, _, _, _ => rfl
  | _ :: _, [], _, h1, _ => Bool.noConfusion h1
  | _ :: _, _ :: _, [], _, h2 => Bool.noConfusion h2
  | a :: as, b :: bs, c :: cs, h1, h2 => by
    rcases (lexLeConsIff ..).mp h1 with hab | ⟨hab, hab2⟩ <;>
      rcases (lexLeConsIff ..).mp h2 with hbc | ⟨hbc, hbc2⟩
    · exact (lexLeConsIff ..).mpr (Or.inl (by omega))
    · exact (lexLeConsIff ..).mpr (Or.inl (by omega))
    · exact (lexLeConsIff ..).mpr (Or.inl (by omega))
    · exact (lexLeConsIff ..).mpr (Or.inr ⟨by omega, lexLeTrans as bs cs hab2 hbc2⟩)

instance : PyOrd String where
  leB := pyStrLe
  total a b := lexLeTotal a.data b.data
  le_trans a b c := lexLeTrans a.data b.data c.data

instance : PyOrd Int where
  leB a b := decide (a ≤ b)
  total a b := by
    rcases le_total a b with h | h
    · exact Or.inl (decide_eq_true h)
    · exact Or.inr (decide_eq_true h)
  le_trans a b c h1 h2 := by
    rw [decide_eq_true_eq] at h1 h2 ⊢
    omega

/-- The order in which Python places `a` before `b` when sorting
descending by key `k` with a stable sort: `a` may precede `b` iff
`k b ≤ k a`. -/
def descRel {α : Type u} {β : Type v} [PyOrd β] (k : α → β) : α → α → Prop :=
  fun a b => PyOrd.leB (k b) (k a) = true

/-- The order for a stable ascending Python sort by key `k`. -/
def ascRel {α : Type u} {β : Type v} [PyOrd β] (k : α → β) : α → α → Prop :=
  fun a b => PyOrd.leB (k a) (k b) = true

instance {α : Type u} {β : Type v} [PyOrd β] (k : α → β) : DecidableRel (descRel k) :=
  fun a b => inferInstanceAs (Decidable (PyOrd.leB (k b) (k a) = true))

instance {α : Type u} {β : Type v} [PyOrd β] (k : α → β) : DecidableRel (ascRel k) :=
  fun a b => inferInstanceAs (Decidable (PyOrd.leB (k a) (k b) = true))

instance {α : Type u} {β : Type v} [PyOrd β] (k : α → β) : IsTotal α (descRel k) :=
  ⟨fun a b => PyOrd.total (k b) (k a)⟩

instance {α : Type u} {β : Type v} [PyOrd β] (k : α → β) : IsTrans α (descRel k) :=
  ⟨fun _ _ _ h1 h2 => PyOrd.le_trans _ _ _ h2 h1⟩

instance {α : Type u} {β : Type v} [PyOrd β] (k : α → β) : IsTotal α (ascRel k) :=
  ⟨fun a b => PyOrd.total (k a) (k b)⟩

instance {α : Type u} {β : Type v} [PyOrd β] (k : α → β) : IsTrans α (ascRel k) :=
  ⟨fun _ _ _ h1 h2 => PyOrd.le_trans _ _ _ h1 h2⟩

/-- Python `sorted(l, key=k, reverse=True)`: stable descending sort by
key.  A stable sort under a total transitive comparison is extensionally
unique, so insertion sort is a faithful model of Python timsort. -/
def pySortDesc {β : Type v} [PyOrd β] (k : α → β) (l : List α) : List α :=
  l.insertionSort (descRel k)

/-- Python `sorted(l, key=k)` / `list.sort(key=k)`: stable ascending sort. -/
def pySortAsc {β : Type v} [PyOrd β] (k : α → β) (l : List α) : List α :=
  l.insertionSort (ascRel k)

/-- `heapq.nlargest(n, l, key=k)`: the Python documentation defines it as
`sorted(l, key=k, reverse=True)[:n]` (ties keep input order). -/
def nlargest {β : Type v} [PyOrd β] (n : Nat) (k : α → β) (l : List α) : List α :=
  (pySortDesc k l).take n

/-! ### Entity records

The snapshot loader lives in `reader.py`, which is not among the sources;
entity shapes are modelled from the specification's data model (§3).
Fields the handlers read through `dict.get` are `Option`-valued; fields
read through `dict[...]` (which would raise `KeyError` when absent) are
plain values. -/

structure Issue where
  id : String
  identifier : String
  title : Option String := none
  description : Option String := none
  priority : Option Int := none
  estimate : Option Int := none
  teamId : Option String := none
  stateId : Option String := none
  assigneeId : Option String := none
  projectId : Option String := none
  dueDate : Option String := none
  createdAt : Option String := none
  updatedAt : Option String := none
deriving DecidableEq

structure User where
  id : String
  name : Option String := none
  displayName : Option String := none
  email : Option String := none
deriving DecidableEq

structure Team where
  id : String
  key : Option String := none
  name : Option String := none
  description : Option String := none
deriving DecidableEq

structure WorkflowState where
  id : String
  name : Option String := none
  type : Option String := none
  color : Option String := none
  position : Option Int := none
  teamId : Option String := none
deriving DecidableEq

structure Comment where
  id : Option String := none
  issueId : Option String := none
  userId : Option String := none
  body : Option String := none
  createdAt : Option String := none
  updatedAt : Option String := none
deriving DecidableEq

structure Project where
  id : String
  name : Option String := none
  state : Option String := none
  description : Option String := none
  startDate : Option String := none
  targetDate : Option String := none
  teamIds : List String := []
deriving DecidableEq

structure Label where
  id : String
  name : Option String := none
  color : Option String := none
  isGroup : Option Bool := none
  teamId : Option String := none
deriving DecidableEq

structure Initiative where
  id : String
  name : Option String := none
  slugId : Option String := none
  color : Option String := none
  status : Option String := none
  ownerId : Option String := none
  teamIds : List String := []
  createdAt : Option String := none
  updatedAt : Option String := none
deriving DecidableEq

/-- `currentProgress` counts; an absent or empty dict is `none` (both are
falsy in the Python `if progress` guard). -/
structure Progress where
  completedIssueCount : Option Int := none
  startedIssueCount : Option Int := none
  unstartedIssueCount : Option Int := none
  scopeCount : Option Int := none
deriving DecidableEq

structure Cycle where
  id : String
  number : Option Int := none
  startsAt : Option String := none
  endsAt : Option String := none
  completedAt : Option String := none
  currentProgress : Option Progress := none
deriving DecidableEq

structure Document where
  id : String
  title : Option String := none
  slugId : Option String := none
  projectId : Option String := none
  creatorId : Option String := none
  createdAt : Option String := none
  updatedAt : Option String := none
deriving DecidableEq

structure Milestone where
  id : String
  name : Option String := none
  targetDate : Option String := none
  sortOrder : Option Int := none
  currentProgress : Option Progress := none
deriving DecidableEq

structure ProjectUpdate where
  id : Option String := none
  body : Option String := none
  health : Option String := none
  projectId : Option String := none
  userId : Option String := none
  createdAt : Option String := none
  updatedAt : Option String := none
deriving DecidableEq

/-- The `LinearLocalReader` snapshot.  Its data maps are the dict values
the handlers iterate (`.values()` in insertion order), plus the id-keyed
`users`/`comments` maps that are accessed by key.  The query primitives
of `reader.py` (not among the sources) are abstract function fields: the
handler theorems hold for every behaviour of these primitives. -/
structure Reader where
  issues : List Issue := []
  users : List (String × User) := []
  teams : List Team := []
  projects : List Project := []
  states : List WorkflowState := []
  labels : List Label := []
  initiatives : List Initiative := []
  documents : List Document := []
  project_updates : List ProjectUpdate := []
  comments : List (String × Comment) := []
  comments_by_issue : List (String × List String) := []
  find_user : String → Option User := fun _ => none
  find_team : String → Option Team := fun _ => none
  find_project : String → Option Project := fun _ => none
  find_initiative : String → Option Initiative := fun _ => none
  find_document : String → Option Document := fun _ => none
  find_issue_status : String → String → Option WorkflowState := fun _ _ => none
  find_milestone : String → String → Option Milestone := fun _ _ => none
  get_issue_by_identifier : String → Option Issue := fun _ => none
  get_state_name : String → Option String := fun _ => none
  get_state_type : String → Option String := fun _ => none
  get_user_name : Option String → String := fun _ => "Unknown"
  get_project_name : Option String → String := fun _ => ""
  get_issue_count_for_team : Option String → Nat := fun _ => 0
  get_issue_count_for_project : Option String → Nat := fun _ => 0
  get_issue_count_for_user : Option String → Nat := fun _ => 0
  get_issue_state_counts_for_team : Option String → List (String × Nat) := fun _ => []
  get_issue_state_counts_for_project : Option String → List (String × Nat) := fun _ => []
  get_issue_state_counts_for_user : Option String → List (String × Nat) := fun _ => []
  get_cycles_for_team : String → List Cycle := fun _ => []
  get_milestones_for_project : String → List Milestone := fun _ => []

/-- Modelled from the spec: `reader.get_comments_for_issue` lives in the
missing `reader.py`.  Per §4.6 it reads the `comments_by_issue` index,
drops comment ids that no longer resolve, and sorts ascending by
`createdAt` (missing timestamps as `""`, the codebase's `or ""` idiom). -/
def get_comments_for_issue (r : Reader) (issueId : String) : List Comment :=
  pySortAsc (fun c => c.createdAt.getD "")
    (((dictGet r.comments_by_issue issueId).getD []).filterMap (dictGet r.comments))

/-- `LocalFallbackRequested(code, message)` from `local_handlers.py`. -/
structure LocalFallbackRequested where
  code : String
  message : String
deriving DecidableEq

/-! ### list_issues (local_handlers.py lines 72-152 and server.py lines 71-159) -/

structure ListIssuesArgs where
  assignee : Option String := none
  team : Option String := none
  state : Option String := none
  priority : Option Int := none
  project : Option String := none
  query : Option String := none
  orderBy : String := "updatedAt"
  limit : Int := 50
deriving DecidableEq

/-- The row shape produced for each issue by `list_issues`. -/
structure IssueRow where
  identifier : String
  title : Option String
  priority : Option Int
  state : Option String
  stateType : Option String
  assignee : String
  dueDate : Option String
deriving DecidableEq

structure IssuesResult where
  issues : List IssueRow
  totalCount : Nat
deriving DecidableEq

def serializeIssueRow (r : Reader) (i : Issue) : IssueRow :=
  { identifier := i.identifier
    title := i.title
    priority := i.priority
    state := r.get_state_name (i.stateId.getD "")
    stateType := r.get_state_type (i.stateId.getD "")
    assignee := r.get_user_name i.assigneeId
    dueDate := i.dueDate }

/-- The shared resolve-one-identifier-argument step: a falsy argument
leaves the filter id `none`; a truthy argument that resolves yields the
entity's id; a truthy argument that does not resolve aborts with `none`
(the handler then returns the empty page). -/
def resolveIdArg (find : String → Option String) (arg : Option String) : Option (Option String) :=
  match arg with
  | none => some none
  | some s =>
    if s.isEmpty then some none
    else
      match find s with
      | some i => some (some i)
      | none => none

/-- The assignee/team/project resolution step shared verbatim by the
`local_handlers.py` and `server.py` versions of `list_issues`. -/
def listIssuesResolve (r : Reader) (a : ListIssuesArgs) :
    Option (Option String × Option String × Option String) := do
  let assigneeId ← resolveIdArg (fun s => (r.find_user s).map User.id) a.assignee
  let teamId ← resolveIdArg (fun s => (r.find_team s).map Team.id) a.team
  let projectId ← resolveIdArg (fun s => (r.find_project s).map Project.id) a.project
  pure (assigneeId, teamId, projectId)

/-- The conjunction of filters in the `list_issues` loop (identical in
both versions; `server.py` lowercases inside the loop, `local_handlers.py`
hoists it — extensionally the same predicate). -/
def issuePred (r : Reader) (a : ListIssuesArgs)
    (ids : Option String × Option String × Option String) (i : Issue) : Bool :=
  (!(pyTruthy ids.1 && !(i.assigneeId == ids.1))) &&
  (!(pyTruthy ids.2.1 && !(i.teamId == ids.2.1))) &&
  (if pyTruthy a.state then
    (r.get_state_type (i.stateId.getD "") == some (a.state.getD "").toLower) ||
    (((r.get_state_name (i.stateId.getD "")).getD "").toLower == (a.state.getD "").toLower)
  else true) &&
  (!(pyTruthy ids.2.2 && !(i.projectId == ids.2.2))) &&
  (if pyTruthy a.query then pyContains (i.title.getD "").toLower (a.query.getD "").toLower
   else true) &&
  (match a.priority with
   | some p => i.priority == some p
   | none => true)

/-- `sort_key = "createdAt" if orderBy == "createdAt" else "updatedAt"`,
with `x.get(sort_key) or ""` for missing values. -/
def issueSortKey (orderBy : String) (i : Issue) : String :=
  if orderBy == "createdAt" then i.createdAt.getD "" else i.updatedAt.getD ""

/-- `list_issues` of `local_handlers.py`: filter in snapshot order, then
`heapq.nlargest(limit, ...)` when `limit and limit > 0`, else a full
stable descending sort. -/
def list_issues (r : Reader) (a : ListIssuesArgs) : IssuesResult :=
  match listIssuesResolve r a with
  | none => { issues := [], totalCount := 0 }
  | some ids =>
    let filtered := r.issues.filter (issuePred r a ids)
    let page :=
      if 0 < a.limit then nlargest a.limit.toNat (issueSortKey a.orderBy) filtered
      else pySortDesc (issueSortKey a.orderBy) filtered
    { issues := page.map (serializeIssueRow r), totalCount := filtered.length }

/-- The page of underlying issues behind `list_issues` (the serialized
rows drop the sort timestamp, so ordering facts are stated here). -/
def list_issues_page (r : Reader) (a : ListIssuesArgs) : List Issue :=
  match listIssuesResolve r a with
  | none => []
  | some ids =>
    let filtered := r.issues.filter (issuePred r a ids)
    if 0 < a.limit then nlargest a.limit.toNat (issueSortKey a.orderBy) filtered
    else pySortDesc (issueSortKey a.orderBy) filtered

/-- `list_issues` of `server.py`: full stable descending sort of all
issues first, then filter, then `filtered[:limit] if limit else filtered`. -/
def server_list_issues (r : Reader) (a : ListIssuesArgs) : IssuesResult :=
  match listIssuesResolve r a with
  | none => { issues := [], totalCount := 0 }
  | some ids =>
    let allSorted := pySortDesc (issueSortKey a.orderBy) r.issues
    let filtered := allSorted.filter (issuePred r a ids)
    let page := if a.limit ≠ 0 then pySliceTo filtered a.limit else filtered
    { issues := page.map (serializeIssueRow r), totalCount := filtered.length }

/-! ### get_issue and list_comments -/

/-- The `{author, body, createdAt}` projection of a comment inside the
`get_issue` view.  `author` is `reader.users.get(userId, {}).get("name",
"Unknown")`. -/
structure CommentProj where
  author : String
  body : String
  createdAt : Option String
deriving DecidableEq

def serializeCommentProj (r : Reader) (c : Comment) : CommentProj :=
  { author := ((dictGet r.users (c.userId.getD "")).bind User.name).getD "Unknown"
    body := c.body.getD ""
    createdAt := c.createdAt }

structure IssueView where
  identifier : String
  title : Option String
  description : Option String
  priority : Option Int
  estimate : Option Int
  state : Option String
  stateType : Option String
  assignee : String
  project : String
  dueDate : Option String
  createdAt : Option String
  updatedAt : Option String
  comments : List CommentProj
  url : String
deriving DecidableEq

/-- The view `get_issue` builds for a found issue. -/
def issueViewOf (r : Reader) (issue : Issue) : IssueView :=
  { identifier := issue.identifier
    title := issue.title
    description := issue.description
    priority := issue.priority
    estimate := issue.estimate
    state := r.get_state_name (issue.stateId.getD "")
    stateType := r.get_state_type (issue.stateId.getD "")
    assignee := r.get_user_name issue.assigneeId
    project := r.get_project_name issue.projectId
    dueDate := issue.dueDate
    createdAt := issue.createdAt
    updatedAt := issue.updatedAt
    comments := (get_comments_for_issue r issue.id).map (serializeCommentProj r)
    url := "https://linear.app/issue/" ++ issue.identifier }

/-- `get_issue` of `local_handlers.py` (lines 155-187). -/
def get_issue (r : Reader) (id : String) : Option IssueView :=
  match r.get_issue_by_identifier id with
  | none => none
  | some issue => some (issueViewOf r issue)

structure CommentRow where
  id : Option String
  author : String
  body : String
  createdAt : Option String
  updatedAt : Option String
deriving DecidableEq

/-- `list_comments` of `local_handlers.py`. -/
def list_comments (r : Reader) (issueId : String) : List CommentRow :=
  match r.get_issue_by_identifier issueId with
  | none => []
  | some issue =>
    (get_comments_for_issue r issue.id).map fun c =>
      { id := c.id
        author := ((dictGet r.users (c.userId.getD "")).bind User.name).getD "Unknown"
        body := c.body.getD ""
        createdAt := c.createdAt
        updatedAt := c.updatedAt }

/-! ### Teams, projects, users -/

structure TeamRow where
  key : Option String
  name : Option String
  issueCount : Nat
deriving DecidableEq

/-- `list_teams` of `local_handlers.py`.  The Python sort key is
`x.get("key", "")`; a `None` key is modelled as `""`. -/
def list_teams (r : Reader) : List TeamRow :=
  pySortAsc (fun x : TeamRow => x.key.getD "")
    (r.teams.map fun t =>
      { key := t.key, name := t.name
        issueCount := r.get_issue_count_for_team (some t.id) })

structure ProjectRow where
  name : Option String
  state : Option String
  issueCount : Nat
  startDate : Option String
  targetDate : Option String
deriving DecidableEq

/-- `list_projects` of `local_handlers.py`. -/
def list_projects (r : Reader) (team : Option String := none) : List ProjectRow :=
  match resolveIdArg (fun s => (r.find_team s).map Team.id) team with
  | none => []
  | some teamId =>
    pySortAsc (fun x : ProjectRow => x.name.getD "")
      ((r.projects.filter fun p =>
        !(pyTruthy teamId && !(p.teamIds.contains (teamId.getD "")))).map fun p =>
        { name := p.name, state := p.state
          issueCount := r.get_issue_count_for_project (some p.id)
          startDate := p.startDate, targetDate := p.targetDate })

structure TeamView where
  id : String
  key : Option String
  name : Option String
  description : Option String
  issueCount : Nat
  issuesByState : List (String × Nat)
deriving DecidableEq

/-- `get_team` of `local_handlers.py`. -/
def get_team (r : Reader) (query : String) : Option TeamView :=
  (r.find_team query).map fun t =>
    { id := t.id, key := t.key, name := t.name, description := t.description
      issueCount := r.get_issue_count_for_team (some t.id)
      issuesByState := r.get_issue_state_counts_for_team (some t.id) }

structure ProjectView where
  id : String
  name : Option String
  description : Option String
  state : Option String
  startDate : Option String
  targetDate : Option String
  issueCount : Nat
  issuesByState : List (String × Nat)
deriving DecidableEq

/-- `get_project` of `local_handlers.py` (the version in the handler
table; it resolves through `find_project`). -/
def get_project (r : Reader) (query : String) : Option ProjectView :=
  (r.find_project query).map fun p =>
    { id := p.id, name := p.name, description := p.description, state := p.state
      startDate := p.startDate, targetDate := p.targetDate
      issueCount := r.get_issue_count_for_project (some p.id)
      issuesByState := r.get_issue_state_counts_for_project (some p.id) }

structure UserRow where
  id : String
  name : Option String
  email : Option String
  displayName : Option String
  assignedIssueCount : Nat
deriving DecidableEq

/-- `list_users` of `local_handlers.py`. -/
def list_users (r : Reader) : List UserRow :=
  pySortAsc (fun x : UserRow => x.name.getD "")
    ((r.users.map Prod.snd).map fun u =>
      { id := u.id, name := u.name, email := u.email, displayName := u.displayName
        assignedIssueCount := r.get_issue_count_for_user (some u.id) })

structure UserView where
  id : String
  name : Option String
  email : Option String
  displayName : Option String
  assignedIssueCount : Nat
  issuesByState : List (String × Nat)
deriving DecidableEq

/-- `get_user` of `local_handlers.py`. -/
def get_user (r : Reader) (query : String) : Option UserView :=
  (r.find_user query).map fun u =>
    let counts := r.get_issue_state_counts_for_user (some u.id)
    { id := u.id, name := u.name, email := u.email, displayName := u.displayName
      assignedIssueCount := (counts.map (·.2)).sum
      issuesByState := counts }

/-! ### Statuses, labels, initiatives, cycles -/

structure StateRow where
  id : String
  name : Option String
  type : Option String
  color : Option String
  position : Option Int
deriving DecidableEq

/-- `list_issue_statuses` of `local_handlers.py`; sort key is
`x.get("position") or 0`. -/
def list_issue_statuses (r : Reader) (team : String) : List StateRow :=
  match r.find_team team with
  | none => []
  | some t =>
    pySortAsc (fun x : StateRow => x.position.getD 0)
      ((r.states.filter fun st => st.teamId == some t.id).map fun st =>
        { id := st.id, name := st.name, type := st.type, color := st.color
          position := st.position })

structure StateView where
  id : String
  name : Option String
  type : Option String
  color : Option String
  position : Option Int
  team : Option String
deriving DecidableEq

/-- `get_issue_status` of `local_handlers.py`; `query = id or name` uses
Python truthiness. -/
def get_issue_status (r : Reader) (team : String) (name : Option String := none)
    (id : Option String := none) : Option StateView :=
  match r.find_team team with
  | none => none
  | some t =>
    let q := if pyTruthy id then id else name
    if !pyTruthy q then none
    else
      (r.find_issue_status t.id (q.getD "")).map fun st =>
        { id := st.id, name := st.name, type := st.type, color := st.color
          position := st.position, team := t.name }

structure LabelRow where
  id : String
  name : Option String
  color : Option String
  isGroup : Option Bool
deriving DecidableEq

def serializeLabelRow (l : Label) : LabelRow :=
  { id := l.id, name := l.name, color := l.color, isGroup := l.isGroup }

/-- `list_issue_labels` of `local_handlers.py` (lines 370-393): note that
an unresolvable `team` leaves `team_id = None` instead of returning
early, so no filtering happens. -/
def list_issue_labels (r : Reader) (team : Option String := none) : List LabelRow :=
  let teamId : Option String :=
    match team with
    | none => none
    | some s =>
      if s.isEmpty then none
      else
        match r.find_team s with
        | some t => some t.id
        | none => none
  pySortAsc (fun x : LabelRow => x.name.getD "")
    ((r.labels.filter fun l =>
      !(pyTruthy teamId && pyTruthy l.teamId && !(l.teamId == teamId))).map serializeLabelRow)

structure InitiativeRow where
  id : String
  name : Option String
  slugId : Option String
  color : Option String
  status : Option String
  owner : String
deriving DecidableEq

/-- `list_initiatives` of `local_handlers.py`. -/
def list_initiatives (r : Reader) : List InitiativeRow :=
  pySortAsc (fun x : InitiativeRow => x.name.getD "")
    (r.initiatives.map fun i =>
      { id := i.id, name := i.name, slugId := i.slugId, color := i.color
        status := i.status, owner := r.get_user_name i.ownerId })

structure InitiativeView where
  id : String
  name : Option String
  slugId : Option String
  color : Option String
  status : Option String
  owner : String
  teamIds : List String
  createdAt : Option String
  updatedAt : Option String
deriving DecidableEq

/-- `get_initiative` of `local_handlers.py`. -/
def get_initiative (r : Reader) (query : String) : Option InitiativeView :=
  (r.find_initiative query).map fun i =>
    { id := i.id, name := i.name, slugId := i.slugId, color := i.color
      status := i.status, owner := r.get_user_name i.ownerId
      teamIds := i.teamIds, createdAt := i.createdAt, updatedAt := i.updatedAt }

structure ProgressRow where
  completed : Int
  started : Int
  unstarted : Int
  total : Int
deriving DecidableEq

/-- `_serialize_progress`: `None` (or an empty dict, equally falsy) maps
to `None`, otherwise each count defaults to 0. -/
def serializeProgress : Option Progress → Option ProgressRow
  | none => none
  | some p =>
    some
      { completed := p.completedIssueCount.getD 0
        started := p.startedIssueCount.getD 0
        unstarted := p.unstartedIssueCount.getD 0
        total := p.scopeCount.getD 0 }

structure CycleRow where
  id : String
  number : Option Int
  startsAt : Option String
  endsAt : Option String
  completedAt : Option String
  progress : Option ProgressRow
deriving DecidableEq

/-- `list_cycles` of `local_handlers.py`. -/
def list_cycles (r : Reader) (teamId : String) : List CycleRow :=
  match r.find_team teamId with
  | none => []
  | some t =>
    (r.get_cycles_for_team t.id).map fun c =>
      { id := c.id, number := c.number, startsAt := c.startsAt, endsAt := c.endsAt
        completedAt := c.completedAt, progress := serializeProgress c.currentProgress }

/-! ### Documents and milestones -/

structure DocumentRow where
  id : String
  title : Option String
  slugId : Option String
  project : String
  createdAt : Option String
  updatedAt : Option String
deriving DecidableEq

/-- `list_documents` of `local_handlers.py`. -/
def list_documents (r : Reader) (project : Option String := none) : List DocumentRow :=
  match resolveIdArg (fun s => (r.find_project s).map Project.id) project with
  | none => []
  | some projectId =>
    pySortDesc (fun x : DocumentRow => x.updatedAt.getD "")
      ((r.documents.filter fun d =>
        !(pyTruthy projectId && !(d.projectId == projectId))).map fun d =>
        { id := d.id, title := d.title, slugId := d.slugId
          project := r.get_project_name d.projectId
          createdAt := d.createdAt, updatedAt := d.updatedAt })

structure DocumentView where
  id : String
  title : Option String
  slugId : Option String
  project : String
  creator : String
  createdAt : Option String
  updatedAt : Option String
  url : String
deriving DecidableEq

/-- `get_document` of `local_handlers.py`; the url interpolates
`doc.get("slugId")`, so a missing slug renders as `"None"`. -/
def get_document (r : Reader) (id : String) : Option DocumentView :=
  (r.find_document id).map fun d =>
    { id := d.id, title := d.title, slugId := d.slugId
      project := r.get_project_name d.projectId
      creator := r.get_user_name d.creatorId
      createdAt := d.createdAt, updatedAt := d.updatedAt
      url := "https://linear.app/document/" ++ pyStr d.slugId }

structure MilestoneRow where
  id : String
  name : Option String
  targetDate : Option String
  progress : Option ProgressRow
deriving DecidableEq

/-- `list_milestones` of `local_handlers.py`. -/
def list_milestones (r : Reader) (project : String) : List MilestoneRow :=
  match r.find_project project with
  | none => []
  | some p =>
    (r.get_milestones_for_project p.id).map fun m =>
      { id := m.id, name := m.name, targetDate := m.targetDate
        progress := serializeProgress m.currentProgress }

structure MilestoneView where
  id : String
  name : Option String
  project : Option String
  targetDate : Option String
  sortOrder : Option Int
  progress : Option ProgressRow
deriving DecidableEq

/-- `get_milestone` of `local_handlers.py`. -/
def get_milestone (r : Reader) (project : String) (query : String) : Option MilestoneView :=
  match r.find_project project with
  | none => none
  | some p =>
    (r.find_milestone p.id query).map fun m =>
      { id := m.id, name := m.name, project := p.name, targetDate := m.targetDate
        sortOrder := m.sortOrder, progress := serializeProgress m.currentProgress }

/-! ### get_status_updates (local_handlers.py lines 542-607) -/

structure StatusUpdatesArgs where
  type : String
  id : Option String := none
  project : Option String := none
  initiative : Option String := none
  user : Option String := none
  includeArchived : Option Bool := none
  orderBy : String := "createdAt"
  limit : Int := 50
  cursor : Option String := none
  createdAt : Option String := none
  updatedAt : Option String := none
deriving DecidableEq

structure StatusUpdateRow where
  id : Option String
  body : Option String
  health : Option String
  author : String
  project : String
  createdAt : Option String
  updatedAt : Option String
deriving DecidableEq

/-- `_serialize_status_update` (identical in both source files). -/
def serialize_status_update (r : Reader) (u : ProjectUpdate) : StatusUpdateRow :=
  { id := u.id, body := u.body, health := u.health
    author := r.get_user_name u.userId
    project := r.get_project_name u.projectId
    createdAt := u.createdAt, updatedAt := u.updatedAt }

/-- `_collect_status_updates`: filter by project id then user id (both
through Python truthiness of the id string), then sort descending by
`createdAt`, or `updatedAt` when `orderBy == "updatedAt"`. -/
def collect_status_updates (r : Reader) (projectId userId : Option String)
    (orderBy : String) : List ProjectUpdate :=
  let u1 := if pyTruthy projectId then r.project_updates.filter (fun u => u.projectId == projectId)
            else r.project_updates
  let u2 := if pyTruthy userId then u1.filter (fun u => u.userId == userId) else u1
  pySortDesc (fun u : ProjectUpdate =>
    (if orderBy == "updatedAt" then u.updatedAt else u.createdAt).getD "") u2

/-- Either the single serialized update (id lookup), or a page. -/
inductive StatusUpdatesResult where
  | single (u : StatusUpdateRow)
  | page (statusUpdates : List StatusUpdateRow) (totalCount : Nat)
deriving DecidableEq

/-- The non-raising tail of `get_status_updates`, after the two
`LocalFallbackRequested` gates. -/
def get_status_updates_ok (r : Reader) (a : StatusUpdatesArgs) : Option StatusUpdatesResult :=
  match resolveIdArg (fun s => (r.find_project s).map Project.id) a.project with
  | none => some (.page [] 0)
  | some projectId =>
    match resolveIdArg (fun s => (r.find_user s).map User.id) a.user with
    | none => some (.page [] 0)
    | some userId =>
      let updates := collect_status_updates r projectId userId a.orderBy
      if pyTruthy a.id then
        (updates.find? (fun u => u.id == a.id)).map
          (fun u => .single (serialize_status_update r u))
      else
        let page := if 0 < a.limit then updates.take a.limit.toNat else updates
        some (.page (page.map (serialize_status_update r)) updates.length)

/-- `get_status_updates` of `local_handlers.py`: raises
`LocalFallbackRequested` for a non-`"project"` type or any truthy
unsupported filter, otherwise never raises. -/
def get_status_updates (r : Reader) (a : StatusUpdatesArgs) :
    Except LocalFallbackRequested (Option StatusUpdatesResult) :=
  if a.type ≠ "project" then
    .error ⟨"unsupported_type", "local cache supports only get_status_updates(type='project')"⟩
  else if pyTruthy a.initiative || pyTruthy a.cursor || pyTruthy a.createdAt ||
      pyTruthy a.updatedAt || pyTruthyBool a.includeArchived then
    .error ⟨"unsupported_filter", "one or more filters are unsupported by local cache"⟩
  else
    .ok (get_status_updates_ok r a)

/-- `list_project_updates` of `local_handlers.py`: resolves the project,
then delegates to `get_status_updates(type="project", project=..., limit=0)`
and projects the `statusUpdates` field. -/
def list_project_updates (r : Reader) (project : String) : List StatusUpdateRow :=
  match r.find_project project with
  | none => []
  | some _ =>
    match get_status_updates r { type := "project", project := some project, limit := 0 } with
    | .ok (some (.page l _)) => l
    | _ => []

/-! ### The local read handler table (LOCAL_READ_HANDLERS, lines 610-632)

One constructor per tool name, carrying that tool's arguments; the
dispatch function applies the corresponding handler. -/

inductive LocalReadCall where
  | list_issues (a : ListIssuesArgs)
  | get_issue (id : String)
  | list_teams
  | list_projects (team : Option String)
  | get_team (query : String)
  | get_project (query : String)
  | list_users
  | get_user (query : String)
  | list_issue_statuses (team : String)
  | get_issue_status (team : String) (name : Option String) (id : Option String)
  | list_comments (issueId : String)
  | list_issue_labels (team : Option String)
  | list_initiatives
  | get_initiative (query : String)
  | list_cycles (teamId : String)
  | list_documents (project : Option String)
  | get_document (id : String)
  | list_milestones (project : String)
  | get_milestone (project : String) (query : String)
  | get_status_updates (a : StatusUpdatesArgs)
  | list_project_updates (project : String)

/-- Result sum across the handler table; the one raising handler's
`LocalFallbackRequested` outcome is folded in as a constructor. -/
inductive LocalResult where
  | issuesR (v : IssuesResult)
  | issueR (v : Option IssueView)
  | teamsR (v : List TeamRow)
  | projectsR (v : List ProjectRow)
  | teamR (v : Option TeamView)
  | projectR (v : Option ProjectView)
  | usersR (v : List UserRow)
  | userR (v : Option UserView)
  | statusesR (v : List StateRow)
  | statusR (v : Option StateView)
  | commentsR (v : List CommentRow)
  | labelsR (v : List LabelRow)
  | initiativesR (v : List InitiativeRow)
  | initiativeR (v : Option InitiativeView)
  | cyclesR (v : List CycleRow)
  | documentsR (v : List DocumentRow)
  | documentR (v : Option DocumentView)
  | milestonesR (v : List MilestoneRow)
  | milestoneR (v : Option MilestoneView)
  | statusUpdatesR (v : Except LocalFallbackRequested (Option StatusUpdatesResult))
  | projectUpdatesR (v : List StatusUpdateRow)

/-- Dispatch through `LOCAL_READ_HANDLERS`: a pure function of the
snapshot and the call. -/
def runLocalRead (r : Reader) : LocalReadCall → LocalResult
  | .list_issues a => .issuesR (list_issues r a)
  | .get_issue id => .issueR (get_issue r id)
  | .list_teams => .teamsR (list_teams r)
  | .list_projects team => .projectsR (list_projects r team)
  | .get_team q => .teamR (get_team r q)
  | .get_project q => .projectR (get_project r q)
  | .list_users => .usersR (list_users r)
  | .get_user q => .userR (get_user r q)
  | .list_issue_statuses t => .statusesR (list_issue_statuses r t)
  | .get_issue_status t n i => .statusR (get_issue_status r t n i)
  | .list_comments i => .commentsR (list_comments r i)
  | .list_issue_labels t => .labelsR (list_issue_labels r t)
  | .list_initiatives => .initiativesR (list_initiatives r)
  | .get_initiative q => .initiativeR (get_initiative r q)
  | .list_cycles t => .cyclesR (list_cycles r t)
  | .list_documents p => .documentsR (list_documents r p)
  | .get_document i => .documentR (get_document r i)
  | .list_milestones p => .milestonesR (list_milestones r p)
  | .get_milestone p q => .milestoneR (get_milestone r p q)
  | .get_status_updates a => .statusUpdatesR (get_status_updates r a)
  | .list_project_updates p => .projectUpdatesR (list_project_updates r p)

/-! ### OfficialMcpSessionManager (official_session.py)

The async transport is abstracted into an attempt-indexed oracle
`remote : Nat → Except String CallResult`: attempt `k` either raises an
exception (its `str()` rendering) somewhere in connect/submit, or yields
the RPC result.  Everything from the result onward is embedded from the
source. -/

structure OfficialToolError where
  code : String
  message : String
deriving DecidableEq

structure ContentBlock where
  type : String
  text : String
deriving DecidableEq

structure CallResult where
  isError : Bool
  content : List ContentBlock
  structuredContent : Option String := none
deriving DecidableEq

/-- ASCII whitespace, modelling the character class `str.strip()` trims. -/
def isPySpace (c : Char) : Bool :=
  c == ' ' || c == '\t' || c == '\n' || c == '\r' || c == '\x0b' || c == '\x0c'

/-- Python `s.strip()`: drop leading and trailing whitespace. -/
def pyStrip (s : String) : String :=
  ⟨((s.data.dropWhile isPySpace).reverse.dropWhile isPySpace).reverse⟩

/-- `_extract_text`: join the nonempty `text` fields of `"text"`-typed
blocks with newlines, then strip. -/
def extract_text (res : CallResult) : String :=
  pyStrip (String.intercalate "\n"
    ((res.content.filter (fun b => b.type == "text" && !b.text.isEmpty)).map (·.text)))

/-- The value `_normalize_result` returns on the non-error paths.  The
`structuredContent` payload is kept opaque; on the text path the source
applies `json.loads` (an external decoder) whose outcome is a function of
the text, so the text itself is retained; the final fallthrough keeps the
raw result. -/
inductive NormValue where
  | structured (payload : String)
  | textPayload (text : String)
  | raw (res : CallResult)
deriving DecidableEq

/-- `_normalize_result` (official_session.py lines 142-162): an `isError`
result raises `OfficialToolError("official_tool_error", <text blocks>)`. -/
def normalize_result (res : CallResult) : Except OfficialToolError NormValue :=
  if res.isError then
    .error ⟨"official_tool_error",
      if (extract_text res).isEmpty then "official MCP returned an error" else extract_text res⟩
  else
    match res.structuredContent with
    | some s => .ok (.structured s)
    | none =>
      if !(extract_text res).isEmpty then .ok (.textPayload (extract_text res))
      else .ok (.raw res)

/-- The health counters of the session manager that `call_tool` touches. -/
structure SessState where
  connected : Bool := false
  failure_count : Nat := 0
  last_error : Option String := none
deriving DecidableEq

/-- One iteration of the `for attempt in range(2)` body of `call_tool`:
ensure-connected + submit (the oracle), then reset counters and
normalize inside the same `try`; any exception is recorded
(`failure_count += 1`, `last_error = str(exc)`) and the session is
force-disconnected.  Note that an `OfficialToolError` raised by
`_normalize_result` is caught here too, after the counters were reset. -/
def runAttempt (remote : Nat → Except String CallResult) (k : Nat) (st : SessState) :
    SessState × Except String NormValue :=
  match remote k with
  | .error e =>
    ({ connected := false, failure_count := st.failure_count + 1, last_error := some e },
      .error e)
  | .ok res =>
    match normalize_result res with
    | .ok v => ({ connected := true, failure_count := 0, last_error := none }, .ok v)
    | .error err =>
      ({ connected := false, failure_count := 0 + 1, last_error := some err.message },
        .error err.message)

/-- `call_tool` (official_session.py lines 180-204): two attempts; the
second failure raises `OfficialToolError("official_unavailable",
f"official MCP call failed for tool '{name}': {exc}")`. -/
def call_tool (remote : Nat → Except String CallResult) (name : String) (st : SessState) :
    SessState × Except OfficialToolError NormValue :=
  match runAttempt remote 0 st with
  | (st1, .ok v) => (st1, .ok v)
  | (st1, .error _) =>
    match runAttempt remote 1 st1 with
    | (st2, .ok v) => (st2, .ok v)
    | (st2, .error e2) =>
      (st2, .error ⟨"official_unavailable",
        "official MCP call failed for tool '" ++ name ++ "': " ++ e2⟩)

/-! ### Concrete sample data for witnesses and counterexamples -/

/-- A snapshot with one issue, used by several witnesses. -/
def wIssue : Issue :=
  { id := "I1", identifier := "DEV-1", title := some "Fix bug"
    createdAt := some "2024-01-01T00:00:00.000Z"
    updatedAt := some "2024-02-01T00:00:00.000Z" }

def wIssue2 : Issue :=
  { id := "I2", identifier := "DEV-2", title := some "Ship feature"
    createdAt := some "2024-03-01T00:00:00.000Z"
    updatedAt := some "2024-04-01T00:00:00.000Z" }

def wComment1 : Comment :=
  { id := some "C1", issueId := some "I1", userId := some "U1"
    body := some "LGTM", createdAt := some "2024-01-02T00:00:00.000Z" }

def wComment2 : Comment :=
  { id := some "C2", issueId := some "I1", userId := some "U1"
    body := some "first", createdAt := some "2024-01-01T12:00:00.000Z" }

def wUpdate1 : ProjectUpdate :=
  { id := some "PU1", body := some "on track", health := some "onTrack"
    projectId := some "P1", userId := some "U1"
    createdAt := some "2024-01-05T00:00:00.000Z" }

def wUpdate2 : ProjectUpdate :=
  { id := some "PU2", body := some "late", health := some "atRisk"
    projectId := some "P2", userId := some "U1"
    createdAt := some "2024-01-06T00:00:00.000Z" }

/-- A reader whose fuzzy lookups all fail. -/
def wReaderNoMatch : Reader :=
  { issues := [wIssue, wIssue2]
    labels := [{ id := "L1", name := some "bug" }, { id := "L2", name := some "api", teamId := some "T1" }] }

/-- A reader with concrete lookups for the witness evaluations. -/
def wReader : Reader :=
  { issues := [wIssue, wIssue2]
    users := [("U1", { id := "U1", name := some "Alice" })]
    comments := [("C1", wComment1), ("C2", wComment2)]
    comments_by_issue := [("I1", ["C1", "C2"])]
    project_updates := [wUpdate1, wUpdate2]
    find_user := fun s => if s == "Alice" then some { id := "U1", name := some "Alice" } else none
    find_project := fun s => if s == "Apollo" then some { id := "P1", name := some "Apollo" } else none
    get_issue_by_identifier := fun s =>
      if s == "DEV-1" || s == "dev-1" then some wIssue else none }

def wArgsLimit1 : ListIssuesArgs := { limit := 1 }

def wArgsNeg : ListIssuesArgs := { limit := -1 }

def wArgsBadAssignee : ListIssuesArgs := { assignee := some "nobody" }

/-- A `get_status_updates` call that looks up an id under a project
filter the update with that id does not satisfy. -/
def wStatusArgs : StatusUpdatesArgs :=
  { type := "project", id := some "PU2", project := some "Apollo" }

/-- A remote result with the `isError` flag set. -/
def wErrorResult : CallResult :=
  { isError := true, content := [{ type := "text", text := "boom" }] }

/-- A successful remote result carrying structured content. -/
def wOkResult : CallResult :=
  { isError := false, content := [], structuredContent := some "payload" }

/-! ## Lemmas about the stable sort model -/

theorem orderedInsert_eq_cons {α : Type u} {r : α → α → Prop} [DecidableRel r] {a : α}
    {l : List α} (h : ∀ b ∈ l, r a b) : List.orderedInsert r a l = a :: l := by
  cases l with
  | nil => rfl
  | cons b t => exact List.orderedInsert_of_le r t (h b (List.mem_cons_self b t))

theorem filter_orderedInsert {α : Type u} {r : α → α → Prop} [DecidableRel r] [IsTrans α r]
    (p : α → Bool) (a : α) : ∀ l : List α, l.Sorted r →
    (List.orderedInsert r a l).filter p =
      if p a then List.orderedInsert r a (l.filter p) else l.filter p
  | [], _ => by
    cases hp : p a <;> simp [List.orderedInsert, List.filter, hp]
  | b :: t, hl => by
    have hbt : ∀ c ∈ t, r b c := (List.sorted_cons.mp hl).1
    have ht : t.Sorted r := (List.sorted_cons.mp hl).2
    simp only [List.orderedInsert]
    by_cases hr : r a b
    · rw [if_pos hr]
      by_cases hp : p a
      · rw [List.filter_cons, if_pos hp, if_pos hp]
        have hall : ∀ c ∈ (b :: t).filter p, r a c := by
          intro c hc
          rcases List.mem_cons.mp (List.mem_of_mem_filter hc) with h1 | h2
          · exact h1 ▸ hr
          · exact IsTrans.trans a b c hr (hbt c h2)
        rw [orderedInsert_eq_cons hall]
      · rw [List.filter_cons, if_neg hp, if_neg hp]
    · rw [if_neg hr]
      rw [List.filter_cons, List.filter_cons]
      by_cases hp : p a
      · rw [if_pos hp]
        by_cases hpb : p b
        · rw [if_pos hpb, if_pos hpb, filter_orderedInsert p a t ht, if_pos hp]
          simp only [List.orderedInsert, if_neg hr]
        · rw [if_neg hpb, if_neg hpb, filter_orderedInsert p a t ht, if_pos hp]
      · rw [if_neg hp]
        by_cases hpb : p b
        · rw [if_pos hpb, if_pos hpb, filter_orderedInsert p a t ht, if_neg hp]
        · rw [if_neg hpb, if_neg hpb, filter_orderedInsert p a t ht, if_neg hp]

/-- A Boolean filter commutes with a stable sort under a total transitive
comparison. -/
theorem filter_insertionSort {α : Type u} {r : α → α → Prop} [DecidableRel r]
    [IsTotal α r] [IsTrans α r] (p : α → Bool) :
    ∀ l : List α, (l.insertionSort r).filter p = (l.filter p).insertionSort r
  | [] => rfl
  | a :: t => by
    simp only [List.insertionSort]
    rw [filter_orderedInsert p a _ (List.sorted_insertionSort r t),
      filter_insertionSort p t, List.filter_cons]
    by_cases hp : p a
    · rw [if_pos hp, if_pos hp]
      simp only [List.insertionSort]
    · rw [if_neg hp, if_neg hp]

theorem pySortDesc_filter {β : Type v} [PyOrd β] (k : α → β) (p : α → Bool)
    (l : List α) : (pySortDesc k l).filter p = pySortDesc k (l.filter p) :=
  filter_insertionSort p l

theorem pySortDesc_sorted {β : Type v} [PyOrd β] (k : α → β) (l : List α) :
    (pySortDesc k l).Sorted (descRel k) :=
  List.sorted_insertionSort _ l

theorem pySortDesc_perm {β : Type v} [PyOrd β] (k : α → β) (l : List α) :
    (pySortDesc k l).Perm l :=
  List.perm_insertionSort _ l

theorem pySortAsc_sorted {β : Type v} [PyOrd β] (k : α → β) (l : List α) :
    (pySortAsc k l).Sorted (ascRel k) :=
  List.sorted_insertionSort _ l

/-! ## Lemmas about the shared resolution step -/

theorem resolveIdArg_fail {find : String → Option String} {s : String}
    (he : s.isEmpty = false) (hf : find s = none) : resolveIdArg find (some s) = none := by
  simp [resolveIdArg, he, hf]

theorem listIssuesResolve_eq_none (r : Reader) (a : ListIssuesArgs)
    (h : (∃ s, a.assignee = some s ∧ s.isEmpty = false ∧ r.find_user s = none)
       ∨ (∃ s, a.team = some s ∧ s.isEmpty = false ∧ r.find_team s = none)
       ∨ (∃ s, a.project = some s ∧ s.isEmpty = false ∧ r.find_project s = none)) :
    listIssuesResolve r a = none := by
  rcases h with ⟨s, hs, he, hf⟩ | ⟨s, hs, he, hf⟩ | ⟨s, hs, he, hf⟩
  · have h1 : resolveIdArg (fun s => (r.find_user s).map User.id) a.assignee = none := by
      rw [hs]; exact resolveIdArg_fail he (by simp [hf])
    simp [listIssuesResolve, h1]
  · have h1 : resolveIdArg (fun s => (r.find_team s).map Team.id) a.team = none := by
      rw [hs]; exact resolveIdArg_fail he (by simp [hf])
    cases hA : resolveIdArg (fun s => (r.find_user s).map User.id) a.assignee <;>
      simp [listIssuesResolve, hA, h1]
  · have h1 : resolveIdArg (fun s => (r.find_project s).map Project.id) a.project = none := by
      rw [hs]; exact resolveIdArg_fail he (by simp [hf])
    cases hA : resolveIdArg (fun s => (r.find_user s).map User.id) a.assignee <;>
      cases hT : resolveIdArg (fun s => (r.find_team s).map Team.id) a.team <;>
        simp [listIssuesResolve, hA, hT, h1]

theorem list_issues_resolve_fail {r : Reader} {a : ListIssuesArgs}
    (h : listIssuesResolve r a = none) :
    list_issues r a = { issues := [], totalCount := 0 } := by
  simp [list_issues, h]

/-! ## Claim theorems -/

/-- C1: for every snapshot and `list_issues` call, the returned issues are
the serialization of an underlying page; the page has at most `limit`
entries when `limit > 0`; the page is sorted descending by the selected
timestamp (`createdAt` iff `orderBy = "createdAt"`, else `updatedAt`,
compared lexicographically with a missing value as `""`, which sorts
last in descending order); and when the identifier arguments resolve,
`totalCount` is the number of issues passing the filter conjunction
before the limit, and `limit = 0` returns all filtered issues. -/
theorem list_issues_contract (r : Reader) (a : ListIssuesArgs) :
    (list_issues r a).issues = (list_issues_page r a).map (serializeIssueRow r)
    ∧ (0 < a.limit → (list_issues r a).issues.length ≤ a.limit.toNat)
    ∧ List.Sorted (descRel (issueSortKey a.orderBy)) (list_issues_page r a)
    ∧ ∀ ids, listIssuesResolve r a = some ids →
        (list_issues r a).totalCount = (r.issues.filter (issuePred r a ids)).length
        ∧ (a.limit = 0 →
            (list_issues_page r a).Perm (r.issues.filter (issuePred r a ids))) := by
  cases hres : listIssuesResolve r a with
  | none =>
    refine ⟨by simp [list_issues, list_issues_page, hres], ?_, ?_, ?_⟩
    · intro _
      simp [list_issues, hres]
    · simp only [list_issues_page, hres]
      exact List.sorted_nil
    · intro ids hids
      cases hids
  | some ids0 =>
    refine ⟨?_, ?_, ?_, ?_⟩
    · by_cases hl : 0 < a.limit <;> simp [list_issues, list_issues_page, hres, hl]
    · intro hl
      simp only [list_issues, hres, if_pos hl, nlargest]
      rw [List.length_map, List.length_take]
      exact min_le_left _ _
    · simp only [list_issues_page, hres]
      by_cases hl : 0 < a.limit
      · rw [if_pos hl]
        exact List.Pairwise.sublist (List.take_sublist _ _) (pySortDesc_sorted _ _)
      · rw [if_neg hl]
        exact pySortDesc_sorted _ _
    · intro ids hids
      injection hids with hids
      subst hids
      constructor
      · simp [list_issues, hres]
      · intro h0
        simp only [list_issues_page, hres, h0]
        rw [if_neg (by decide)]
        exact pySortDesc_perm _ _

/-- Witness for C1 at a concrete snapshot and `limit = 1`. -/
theorem list_issues_contract_witness :
    (list_issues wReader wArgsLimit1).issues.length ≤ (1 : Int).toNat
    ∧ (list_issues wReader wArgsLimit1).totalCount =
        (wReader.issues.filter (issuePred wReader wArgsLimit1 (none, none, none))).length :=
  ⟨(list_issues_contract wReader wArgsLimit1).2.1 (by decide),
   ((list_issues_contract wReader wArgsLimit1).2.2.2 (none, none, none) rfl).1⟩

/-- C3 counterexample: at `limit = -1` the `server.py` version slices
`filtered[:-1]` (dropping the final element) while the
`local_handlers.py` version takes the `limit and limit > 0` else-branch
and returns the whole sorted filtered list, so the two implementations
disagree. -/
theorem list_issues_impls_differ :
    server_list_issues wReaderNoMatch wArgsNeg ≠ list_issues wReaderNoMatch wArgsNeg := by
  intro hcontra
  have h1 : (server_list_issues wReaderNoMatch wArgsNeg).issues.length = 1 := rfl
  have h2 : (list_issues wReaderNoMatch wArgsNeg).issues.length = 2 := rfl
  rw [hcontra] at h1
  rw [h1] at h2
  exact absurd h2 (by decide)

/-- C3 amended: for every snapshot and every argument combination with
`limit ≥ 0` (every limit the tool schema intends), the two `list_issues`
implementations return the same issues and the same `totalCount`: a
stable full sort then filter then slice agrees with filter then
`heapq.nlargest` (resp. full sort when `limit = 0`). -/
theorem list_issues_impls_agree (r : Reader) (a : ListIssuesArgs) (h : 0 ≤ a.limit) :
    server_list_issues r a = list_issues r a := by
  cases hres : listIssuesResolve r a with
  | none => simp [server_list_issues, list_issues, hres]
  | some ids =>
    simp only [server_list_issues, list_issues, hres]
    rw [pySortDesc_filter]
    by_cases h0 : a.limit = 0
    · rw [if_neg (by simp [h0]), if_neg (by simp [h0]),
        (pySortDesc_perm (issueSortKey a.orderBy) (r.issues.filter (issuePred r a ids))).length_eq]
    · have hpos : 0 < a.limit := lt_of_le_of_ne h (Ne.symm h0)
      rw [if_pos h0, if_pos hpos]
      simp only [pySliceTo, if_pos h, nlargest]
      rw [(pySortDesc_perm (issueSortKey a.orderBy) (r.issues.filter (issuePred r a ids))).length_eq]

/-- Witness for the amended C3 at a concrete snapshot and `limit = 1`. -/
theorem list_issues_impls_agree_witness :
    server_list_issues wReader wArgsLimit1 = list_issues wReader wArgsLimit1 :=
  list_issues_impls_agree wReader wArgsLimit1 (by decide)

/-- C6: if any supplied (truthy) identifier argument of `list_issues`
fails its fuzzy lookup, the handler returns the empty page with
`totalCount = 0`, whatever the other arguments are. -/
theorem list_issues_unresolved_empty (r : Reader) (a : ListIssuesArgs)
    (h : (∃ s, a.assignee = some s ∧ s.isEmpty = false ∧ r.find_user s = none)
       ∨ (∃ s, a.team = some s ∧ s.isEmpty = false ∧ r.find_team s = none)
       ∨ (∃ s, a.project = some s ∧ s.isEmpty = false ∧ r.find_project s = none)) :
    list_issues r a = { issues := [], totalCount := 0 } :=
  list_issues_resolve_fail (listIssuesResolve_eq_none r a h)

/-- Witness for C6: an assignee that resolves to no user. -/
theorem list_issues_unresolved_empty_witness :
    list_issues wReader wArgsBadAssignee = { issues := [], totalCount := 0 } :=
  list_issues_unresolved_empty wReader wArgsBadAssignee
    (Or.inl ⟨"nobody", rfl, rfl, rfl⟩)

/-- C9: when a non-empty `team` argument of `list_issue_labels` fails to
resolve, the handler filters nothing: it returns every label in the
snapshot (workspace-global and team labels alike) sorted ascending by
name, identically to calling it with no `team` — whereas `list_issues`,
`list_projects` and `list_documents` return an empty result when an
identifier argument fails to resolve. -/
theorem list_issue_labels_lenient (r : Reader) (s : String) (he : s.isEmpty = false)
    (hf : r.find_team s = none) :
    list_issue_labels r (some s)
      = pySortAsc (fun x : LabelRow => x.name.getD "") (r.labels.map serializeLabelRow)
    ∧ list_issue_labels r (some s) = list_issue_labels r none
    ∧ (∀ a : ListIssuesArgs, a.team = some s →
        list_issues r a = { issues := [], totalCount := 0 })
    ∧ (∀ p, p.isEmpty = false → r.find_project p = none → list_documents r (some p) = [])
    ∧ list_projects r (some s) = [] := by
  refine ⟨?_, ?_, ?_, ?_, ?_⟩
  · simp [list_issue_labels, he, hf, pyTruthy]
  · simp [list_issue_labels, he, hf, pyTruthy]
  · intro a ha
    exact list_issues_resolve_fail
      (listIssuesResolve_eq_none r a (Or.inr (Or.inl ⟨s, ha, he, hf⟩)))
  · intro p hep hfp
    have hdoc : resolveIdArg (fun q => (r.find_project q).map Project.id) (some p) = none :=
      resolveIdArg_fail hep (by simp [hfp])
    simp [list_documents, hdoc]
  · have hprj : resolveIdArg (fun q => (r.find_team q).map Team.id) (some s) = none :=
      resolveIdArg_fail he (by simp [hf])
    simp [list_projects, hprj]

/-- Witness for C9: a team query that resolves to nothing still lists
every label. -/
theorem list_issue_labels_lenient_witness :
    list_issue_labels wReaderNoMatch (some "growth")
      = pySortAsc (fun x : LabelRow => x.name.getD "")
          (wReaderNoMatch.labels.map serializeLabelRow)
    ∧ list_issue_labels wReaderNoMatch (some "growth")
      = list_issue_labels wReaderNoMatch none :=
  ⟨(list_issue_labels_lenient wReaderNoMatch "growth" rfl rfl).1,
   (list_issue_labels_lenient wReaderNoMatch "growth" rfl rfl).2.1⟩

/-- C4: `get_status_updates` raises `LocalFallbackRequested` with code
`"unsupported_type"` whenever `type` is not `"project"`; with code
`"unsupported_filter"` whenever `type = "project"` and any of
`initiative`, `cursor`, `createdAt`, `updatedAt`, `includeArchived` is
set (set in the Python sense of the source's truthiness test: a
non-empty string, resp. `True`); and in every other case it does not
raise. -/
theorem get_status_updates_gate (r : Reader) (a : StatusUpdatesArgs) :
    (a.type ≠ "project" →
      get_status_updates r a =
        .error ⟨"unsupported_type",
          "local cache supports only get_status_updates(type='project')"⟩)
    ∧ (a.type = "project" →
        (pyTruthy a.initiative || pyTruthy a.cursor || pyTruthy a.createdAt ||
          pyTruthy a.updatedAt || pyTruthyBool a.includeArchived) = true →
        get_status_updates r a =
          .error ⟨"unsupported_filter",
            "one or more filters are unsupported by local cache"⟩)
    ∧ (a.type = "project" →
        (pyTruthy a.initiative || pyTruthy a.cursor || pyTruthy a.createdAt ||
          pyTruthy a.updatedAt || pyTruthyBool a.includeArchived) = false →
        get_status_updates r a = .ok (get_status_updates_ok r a)) := by
  refine ⟨?_, ?_, ?_⟩
  · intro hty
    simp [get_status_updates, hty]
  · intro hty hfil
    simp [get_status_updates, hty, hfil]
  · intro hty hfil
    simp [get_status_updates, hty, hfil]

/-- Witness for C4: the three gate outcomes at concrete arguments. -/
theorem get_status_updates_gate_witness :
    get_status_updates wReader { type := "initiative" } =
      .error ⟨"unsupported_type",
        "local cache supports only get_status_updates(type='project')"⟩
    ∧ get_status_updates wReader { type := "project", includeArchived := some true } =
      .error ⟨"unsupported_filter",
        "one or more filters are unsupported by local cache"⟩
    ∧ get_status_updates wReader { type := "project" } =
      .ok (get_status_updates_ok wReader { type := "project" }) :=
  ⟨(get_status_updates_gate wReader { type := "initiative" }).1 (by decide),
   (get_status_updates_gate wReader { type := "project", includeArchived := some true }).2.1
     rfl (by decide),
   (get_status_updates_gate wReader { type := "project" }).2.2 rfl (by decide)⟩

/-- C10: when `get_status_updates` is called with a (truthy) `id`, the
result does not depend on `limit`, and — when the gates pass and the
`project`/`user` arguments resolve — the id is looked up by a linear
scan of exactly the project/user-filtered update list, so an update
whose project or user fails a supplied filter is not found and `None`
is returned. -/
theorem status_update_id_lookup (r : Reader) (a : StatusUpdatesArgs)
    (hid : pyTruthy a.id = true) :
    (∀ l1 l2 : Int,
      get_status_updates r { a with limit := l1 } =
        get_status_updates r { a with limit := l2 })
    ∧ (∀ projectId userId,
        resolveIdArg (fun s => (r.find_project s).map Project.id) a.project = some projectId →
        resolveIdArg (fun s => (r.find_user s).map User.id) a.user = some userId →
        a.type = "project" →
        (pyTruthy a.initiative || pyTruthy a.cursor || pyTruthy a.createdAt ||
          pyTruthy a.updatedAt || pyTruthyBool a.includeArchived) = false →
        get_status_updates r a =
          .ok (((collect_status_updates r projectId userId a.orderBy).find?
              (fun u => u.id == a.id)).map
            (fun u => .single (serialize_status_update r u)))) := by
  constructor
  · intro l1 l2
    simp only [get_status_updates, get_status_updates_ok]
    cases hp : resolveIdArg (fun s => (r.find_project s).map Project.id) a.project <;>
      cases hu : resolveIdArg (fun s => (r.find_user s).map User.id) a.user <;>
        simp [hp, hu, hid]
  · intro projectId userId hp hu hty hfil
    simp [get_status_updates, hty, hfil, get_status_updates_ok, hp, hu, hid]

/-- Witness for C10: update `PU2` exists but belongs to project `P2`;
under the `project = "Apollo"` (id `P1`) filter the id lookup returns
`None`, and `limit` is irrelevant. -/
theorem status_update_id_lookup_witness :
    get_status_updates wReader { wStatusArgs with limit := 1 } =
      get_status_updates wReader { wStatusArgs with limit := 99 }
    ∧ get_status_updates wReader wStatusArgs =
      .ok (((collect_status_updates wReader (some "P1") none wStatusArgs.orderBy).find?
          (fun u => u.id == wStatusArgs.id)).map
        (fun u => .single (serialize_status_update wReader u))) :=
  ⟨(status_update_id_lookup wReader wStatusArgs rfl).1 1 99,
   (status_update_id_lookup wReader wStatusArgs rfl).2 (some "P1") none rfl rfl rfl rfl⟩

/-- C7: `get_issue` returns `None` exactly when the identifier resolves
to no issue; for a found issue the view's `url` is
`"https://linear.app/issue/" ++ identifier` and its `comments` are
exactly the issue's comments projected to `{author, body, createdAt}`
in ascending `createdAt` order. -/
theorem get_issue_view_contract (r : Reader) (id : String) :
    (r.get_issue_by_identifier id = none → get_issue r id = none)
    ∧ ∀ issue, r.get_issue_by_identifier id = some issue →
        ∃ v, get_issue r id = some v
          ∧ v.url = "https://linear.app/issue/" ++ issue.identifier
          ∧ v.comments =
              (get_comments_for_issue r issue.id).map (serializeCommentProj r)
          ∧ List.Sorted (ascRel (fun c : CommentProj => c.createdAt.getD "")) v.comments := by
  constructor
  · intro h
    simp [get_issue, h]
  · intro issue h
    refine ⟨issueViewOf r issue, by simp [get_issue, h], rfl, rfl, ?_⟩
    exact List.Pairwise.map _ (fun a b hab => hab)
      (pySortAsc_sorted (fun c : Comment => c.createdAt.getD "")
        (((dictGet r.comments_by_issue issue.id).getD []).filterMap (dictGet r.comments)))

/-- Witness for C7 on a concrete snapshot: a missing identifier yields
`None`, and `"dev-1"` yields the view of issue `DEV-1`. -/
theorem get_issue_view_contract_witness :
    get_issue wReader "missing" = none
    ∧ ∃ v, get_issue wReader "dev-1" = some v
        ∧ v.url = "https://linear.app/issue/" ++ wIssue.identifier
        ∧ v.comments =
            (get_comments_for_issue wReader wIssue.id).map (serializeCommentProj wReader)
        ∧ List.Sorted (ascRel (fun c : CommentProj => c.createdAt.getD "")) v.comments :=
  ⟨(get_issue_view_contract wReader "missing").1 rfl,
   (get_issue_view_contract wReader "dev-1").2 wIssue rfl⟩

/-- C8: every handler in the local read table is embedded as a total
function of the snapshot and the call — there is no other state — so two
invocations of the dispatch with the same snapshot and the same
arguments return equal results. -/
theorem local_read_handlers_deterministic (r : Reader) (c : LocalReadCall) :
    runLocalRead r c = runLocalRead r c := rfl

/-- C2 (code bug): a result with `isError` set does make
`_normalize_result` raise `OfficialToolError("official_tool_error",
<text blocks>)`, but `call_tool` invokes `_normalize_result` inside its
retry `try`: the error is caught, counted as a failure, retried once,
and what the caller finally sees is
`OfficialToolError("official_unavailable", ...)` — the
`official_tool_error` code never surfaces. -/
theorem call_tool_swallows_tool_error :
    normalize_result wErrorResult = .error ⟨"official_tool_error", "boom"⟩
    ∧ (call_tool (fun _ => .ok wErrorResult) "createIssue" {}).2 =
      .error ⟨"official_unavailable",
        "official MCP call failed for tool 'createIssue': boom"⟩ :=
  ⟨rfl, rfl⟩

/-- C5: inside `call_tool`, an attempt ending in an exception increments
`failure_count` by one from its value at the raise point (the pre-attempt
value when the RPC itself fails; the just-reset 0 when normalization
raises), records `str(exc)` in `last_error`, and forces a disconnect; a
successful attempt resets the counters and returns the normalized
result; and when both attempts fail the caller gets
`OfficialToolError("official_unavailable", ...)`. -/
theorem call_tool_failure_accounting (remote : Nat → Except String CallResult)
    (name : String) (st : SessState) :
    (∀ k e, remote k = .error e →
      (runAttempt remote k st).1 =
        { connected := false, failure_count := st.failure_count + 1, last_error := some e })
    ∧ (∀ res err, remote 0 = .ok res → normalize_result res = .error err →
        (runAttempt remote 0 st).1 =
          { connected := false, failure_count := 1, last_error := some err.message })
    ∧ (∀ res v, remote 0 = .ok res → normalize_result res = .ok v →
        call_tool remote name st =
          ({ connected := true, failure_count := 0, last_error := none }, .ok v))
    ∧ (∀ e1 e2, (runAttempt remote 0 st).2 = .error e1 →
        (runAttempt remote 1 (runAttempt remote 0 st).1).2 = .error e2 →
        (call_tool remote name st).2 =
          .error ⟨"official_unavailable",
            "official MCP call failed for tool '" ++ name ++ "': " ++ e2⟩) := by
  refine ⟨?_, ?_, ?_, ?_⟩
  · intro k e h
    simp [runAttempt, h]
  · intro res err h hn
    simp [runAttempt, h, hn]
  · intro res v h hn
    simp [call_tool, runAttempt, h, hn]
  · intro e1 e2 h1 h2
    rcases hup : runAttempt remote 0 st with ⟨st1, r1⟩
    rw [hup] at h1 h2
    dsimp only at h1 h2
    subst h1
    rcases hup2 : runAttempt remote 1 st1 with ⟨st2, r2⟩
    rw [hup2] at h2
    dsimp only at h2
    subst h2
    simp [call_tool, hup, hup2]

/-- Witness for C5: the three accounting behaviours at concrete oracles. -/
theorem call_tool_failure_accounting_witness :
    (runAttempt (fun _ => .error "boom") 0 {}).1 =
      { connected := false, failure_count := 1, last_error := some "boom" }
    ∧ call_tool (fun _ => .ok wOkResult) "list_issues" {} =
      ({ connected := true, failure_count := 0, last_error := none },
        .ok (.structured "payload"))
    ∧ (call_tool (fun _ => .error "boom") "list_issues" {}).2 =
      .error ⟨"official_unavailable",
        "official MCP call failed for tool 'list_issues': boom"⟩ :=
  ⟨(call_tool_failure_accounting (fun _ => .error "boom") "list_issues" {}).1 0 "boom" rfl,
   (call_tool_failure_accounting (fun _ => .ok wOkResult) "list_issues" {}).2.2.1
     wOkResult (.structured "payload") rfl rfl,
   (call_tool_failure_accounting (fun _ => .error "boom") "list_issues" {}).2.2.2
     "boom" "boom" rfl rfl⟩

end LMF
